import Mathlib

/-!
Verification of the `log_seq` crate (src/lib.rs): a `log`-crate sink that
forwards records to a Seq ingestion endpoint as CLEF JSON.

Strings are modelled as `List Char`.  Side effects (console output, the
HTTP request, standard-error diagnostics) are modelled by an explicit
`LogEffects` record returned by `Seq.log`; the nondeterministic parts
(the UTC timestamp, the transport outcome) are passed in as parameters.
-/

namespace LogSeq

/-- Strings of the program, as lists of characters. -/
abbrev Str := List Char

/-- Severity levels of the `log` crate (declaration order of the crate:
Error, Warn, Info, Debug, Trace). -/
inductive Level
| Error
| Warn
| Info
| Debug
| Trace
deriving DecidableEq, Repr

/-- Level filters of the `log` crate, ordered by their discriminant
(Off = 0 < Error = 1 < Warn = 2 < Info = 3 < Debug = 4 < Trace = 5). -/
inductive LevelFilter
| Off
| Error
| Warn
| Info
| Debug
| Trace
deriving DecidableEq, Repr

/-- Discriminant of a `LevelFilter`, the value its derived `PartialOrd`
compares. -/
def LevelFilter.toNat : LevelFilter → Nat
| .Off => 0
| .Error => 1
| .Warn => 2
| .Info => 3
| .Debug => 4
| .Trace => 5

/-- The `PartialOrd`/`Ord` comparison on `LevelFilter`, as a boolean. -/
def LevelFilter.leb (a b : LevelFilter) : Bool :=
  Nat.ble a.toNat b.toNat

/-- `Level::to_level_filter` of the `log` crate. -/
def Level.to_level_filter : Level → LevelFilter
| .Error => .Error
| .Warn => .Warn
| .Info => .Info
| .Debug => .Debug
| .Trace => .Trace

/-- `str::starts_with` for string needles: does `s` start with `p`? -/
def startsWithStr : Str → Str → Bool
| [], _ => true
| _ :: _, [] => false
| p :: ps, c :: cs => p == c && startsWithStr ps cs

/-- `str::contains` for string needles: does `hay` contain `needle` as a
contiguous substring?  `[].contains needle` is true exactly for the empty
needle, matching Rust. -/
def strContains : Str → Str → Bool
| [], needle => startsWithStr needle []
| hay@(_ :: t), needle => startsWithStr needle hay || strContains t needle

/-- `str::replace` for a single-character pattern `p`, replacing each
occurrence by `r` (Rust scans left to right; for a one-character pattern
this is exactly a character-wise expansion). -/
def replaceChar (p : Char) (r : Str) (s : Str) : Str :=
  s.flatMap (fun c => if c = p then r else [c])

/-- The `Seq` struct: sink configuration. -/
structure Seq where
  default_level : LevelFilter
  ingest_url : Str
  api_key : Str
  application : Str
  module : Str
deriving DecidableEq, Repr

/-- `Seq::new`: builds the sink; `default_level` is hard-coded to
`LevelFilter::Info` regardless of the four arguments. -/
def Seq.new (api_key ingest_url application module : Str) : Seq :=
  { default_level := LevelFilter.Info
    ingest_url := ingest_url
    api_key := api_key
    application := application
    module := module }

/-- `Seq::init` calls `log::set_max_level(self.default_level)`; we model
the observable effect as the value passed to `set_max_level`. -/
def Seq.init (s : Seq) : LevelFilter :=
  s.default_level

/-- `Seq::level_to_seq_level`: severity name used in the CLEF payload. -/
def Seq.level_to_seq_level : Level → Str
| .Trace => ("Verbose").data
| .Debug => ("Debug").data
| .Info => ("Information").data
| .Warn => ("Warning").data
| .Error => ("Error").data

/-- A `log::Record`: severity, formatted message (`args`), and the
optional source-location data.  `line` is a `u32` in Rust; the program
never arithmetically manipulates it, so `Nat` is faithful. -/
structure Record where
  level : Level
  args : Str
  module_path : Option Str
  file : Option Str
  line : Option Nat
deriving DecidableEq, Repr

/-- The match arm of `Seq::debug_print` choosing the bracketed prefix. -/
def debugPrefix : Level → Str
| .Trace => ("[ TRACE ]").data
| .Debug => ("[ DEBUG ]").data
| .Info => ("[ INFO ]").data
| .Warn => ("[ WARN ]").data
| .Error => ("[ ERROR ]").data

/-- `Seq::debug_print`: the single console line printed for a forwarded
record, `println!("{} {}", prefix, record.args().to_string().replace("\"", ""))`. -/
def Seq.debug_print (record : Record) : Str :=
  debugPrefix record.level ++ (" ").data ++ replaceChar '"' [] record.args

/-- The `SeqMessage` struct. -/
structure SeqMessage where
  timestamp : Str
  message : Str
  application : Str
  line : Nat
  level : Str
  module : Str
  file : Str
deriving DecidableEq, Repr

/-- `SeqMessage::from_record`; `now` stands for the
`Utc::now().format("%+")` timestamp string. -/
def SeqMessage.from_record (seq : Seq) (record : Record) (now : Str) : SeqMessage :=
  { timestamp := now
    message := record.args
    application := seq.application
    line := record.line.getD 0
    level := Seq.level_to_seq_level record.level
    module := (record.module_path.getD [])
    file := (record.file.getD []) }

/-- Decimal rendering of the `u32` line number, as `format!` displays it. -/
def natToStr (n : Nat) : Str :=
  (toString n).data

/-- The message-body escaping performed inside `SeqMessage::as_clef`:
`self.message.replace("\"", "\\\"").replace("\n", "\\n")`. -/
def clefEscape (s : Str) : Str :=
  replaceChar '\n' ['\\', 'n'] (replaceChar '"' ['\\', '"'] s)

/-- `SeqMessage::as_clef`: the CLEF JSON line, built by `format!` from the
fixed template with the fields interpolated; only the message body is
escaped. -/
def SeqMessage.as_clef (m : SeqMessage) : Str :=
  ("\x7b\"@t\": \"").data ++ m.timestamp
    ++ ("\", \"@mt\": \"").data ++ clefEscape m.message
    ++ ("\", \"Application\": \"").data ++ m.application
    ++ ("\", \"Line\": \"").data ++ natToStr m.line
    ++ ("\", \"@l\": \"").data ++ m.level
    ++ ("\", \"Module\": \"").data ++ m.module
    ++ ("\", \"file\": \"").data ++ m.file
    ++ ("\"\x7d").data

/-- `Log::enabled` for `Seq`:
`metadata.level().to_level_filter() <= self.default_level`. -/
def Seq.enabled (seq : Seq) (level : Level) : Bool :=
  LevelFilter.leb level.to_level_filter seq.default_level

/-- The HTTP request `Seq::log` builds with `ureq::post`. -/
structure Request where
  url : Str
  api_key : Str
  content_type : Str
  body : Str
deriving DecidableEq, Repr

/-- Outcome of `.send(...)`: `Ok(_)` or `Err(why)`; the error is modelled
by its `{:?}` rendering. -/
inductive TransportResult
| ok
| err (why : Str)
deriving DecidableEq, Repr

/-- Observable side effects of one `Seq::log` call: console lines written
to standard output, HTTP requests attempted, and lines written to
standard error.  `Seq::log` returns `()` in Rust and is modelled by a
total Lean function, so every call returns normally to the caller. -/
structure LogEffects where
  console : List Str
  requests : List Request
  stderr : List Str
deriving DecidableEq, Repr

/-- The effects of a call that returns early: nothing at all happens. -/
def emptyEffects : LogEffects :=
  { console := [], requests := [], stderr := [] }

/-- Character escaping of the derived `Debug` formatter for the string
fields of `SeqMessage` (`char::escape_debug` on the characters that can
occur in them). -/
def debugEscape (s : Str) : Str :=
  s.flatMap (fun c =>
    if c = '"' then ['\\', '"']
    else if c = '\\' then ['\\', '\\']
    else if c = '\n' then ['\\', 'n']
    else if c = '\r' then ['\\', 'r']
    else if c = '\t' then ['\\', 't']
    else [c])

/-- The `{:#?}` pretty `Debug` rendering of a `SeqMessage` produced by
`derive(Debug)`: one field per line, string fields quoted and escaped. -/
def SeqMessage.debugFmt (m : SeqMessage) : Str :=
  ("SeqMessage \x7b\n    timestamp: \"").data ++ debugEscape m.timestamp
    ++ ("\",\n    message: \"").data ++ debugEscape m.message
    ++ ("\",\n    application: \"").data ++ debugEscape m.application
    ++ ("\",\n    line: ").data ++ natToStr m.line
    ++ (",\n    level: \"").data ++ debugEscape m.level
    ++ ("\",\n    module: \"").data ++ debugEscape m.module
    ++ ("\",\n    file: \"").data ++ debugEscape m.file
    ++ ("\",\n\x7d").data

/-- The request `Seq::log` posts: `ureq::post` on
`format!("{}/api/events/raw?clef", self.ingest_url)` with the api-key and
content-type headers and the CLEF body. -/
def Seq.logRequest (seq : Seq) (record : Record) (now : Str) : Request :=
  { url := seq.ingest_url ++ ("/api/events/raw?clef").data
    api_key := seq.api_key
    content_type := ("application/vnd.serilog.clef").data
    body := (SeqMessage.from_record seq record now).as_clef }

/-- `Log::log` for `Seq`.  `now` stands for the timestamp drawn inside
`SeqMessage::from_record`; `transport` stands for the network, mapping
the posted request to the outcome of `.send`.  Mirrors the source: early
return when not enabled; early return when the module path does not
contain the filter and the level is not at least `Warn`-important;
otherwise one console line, one posted request, and on `Err(why)` three
diagnostic lines on standard error.  The Lean function is total, so every
call returns normally: no error is propagated to the caller. -/
def Seq.log (seq : Seq) (record : Record) (now : Str)
    (transport : Request → TransportResult) : LogEffects :=
  if !(seq.enabled record.level) then emptyEffects
  else if !(strContains (record.module_path.getD []) seq.module)
       && !(LevelFilter.leb record.level.to_level_filter LevelFilter.Warn) then
    emptyEffects
  else
    match transport (seq.logRequest record now) with
    | .ok =>
      { console := [Seq.debug_print record]
        requests := [seq.logRequest record now]
        stderr := [] }
    | .err why =>
      { console := [Seq.debug_print record]
        requests := [seq.logRequest record now]
        stderr :=
          [("Seq msg attempt: ").data ++ (SeqMessage.from_record seq record now).debugFmt,
           ("Rendered message: ").data ++ (SeqMessage.from_record seq record now).as_clef,
           ("Updating seq logs failed: ").data ++ why] }

/-! Specification-side definitions, following the spec wording, used to
state the claims (not taken from the source). -/

/-- Importance rank of a severity, per the spec ordering
Trace < Debug < Info < Warn < Error. -/
def Level.importance : Level → Nat
| .Trace => 0
| .Debug => 1
| .Info => 2
| .Warn => 3
| .Error => 4

/-- Upper-case severity names for the console tag, per the spec wording
of the console format. -/
def levelUpperName : Level → Str
| .Trace => ("TRACE").data
| .Debug => ("DEBUG").data
| .Info => ("INFO").data
| .Warn => ("WARN").data
| .Error => ("ERROR").data

/-- Console line format claimed by the spec:
bracketed upper-case severity tag, a space, then the message text with
every double quote removed. -/
def consoleFormat (lvl : Level) (msg : Str) : Str :=
  ("[ ").data ++ levelUpperName lvl ++ (" ] ").data ++ replaceChar '"' [] msg

/-- Hexadecimal digit test, for the `\uXXXX` JSON escape form. -/
def isHex (c : Char) : Bool :=
  c.isDigit || ('a' ≤ c && c ≤ 'f') || ('A' ≤ c && c ≤ 'F')

/-- Scanner state for JSON string-body validity: in ordinary text, just
after a backslash, or expecting `n` more hexadecimal digits. -/
inductive JState
| norm
| esc
| hex (n : Nat)
deriving DecidableEq, Repr

/-- One-pass validity scan of the characters of a JSON string body
(RFC 8259): no unescaped quote, no control character below U+0020, every
backslash starts a legal escape sequence. -/
def jsonBodyScan : JState → Str → Bool
| .norm, [] => true
| .esc, [] => false
| .hex _, [] => false
| .norm, c :: rest =>
    if c = '\\' then jsonBodyScan .esc rest
    else (c != '"') && Nat.ble 32 c.toNat && jsonBodyScan .norm rest
| .esc, e :: rest =>
    if e = 'u' then jsonBodyScan (.hex 4) rest
    else (e == '"' || e == '\\' || e == '/' || e == 'b' || e == 'f'
          || e == 'n' || e == 'r' || e == 't')
         && jsonBodyScan .norm rest
| .hex n, c :: rest =>
    isHex c && jsonBodyScan (if n ≤ 1 then .norm else .hex (n - 1)) rest

/-- A character list is a valid JSON string body when the scan accepts it
from the ordinary state. -/
def jsonStringBody (s : Str) : Bool :=
  jsonBodyScan .norm s

/-- The character-wise action the spec claims for the message escaping:
a double quote becomes backslash-quote, a newline becomes backslash-n,
everything else is copied unchanged. -/
def specEscAction (c : Char) : Str :=
  if c = '"' then ['\\', '"']
  else if c = '\n' then ['\\', 'n']
  else [c]

/-! Concrete fixtures used by witness and counterexample theorems. -/

/-- A sink built by `Seq::new` with filter substring `"app"`. -/
def seqFix : Seq :=
  Seq.new ("key").data ("http://seq.local").data ("demo").data ("app").data

/-- A sink built by `Seq::new` with the empty filter substring. -/
def seqEmptyFilter : Seq :=
  Seq.new ("key").data ("http://seq.local").data ("demo").data []

/-- A record whose module path contains the filter substring. -/
def recInApp : Record :=
  { level := Level.Info
    args := ("hello").data
    module_path := some ("app::core").data
    file := some ("lib.rs").data
    line := some 7 }

/-- An Error record with message `boom` and no source-location data. -/
def recBoom : Record :=
  { level := Level.Error
    args := ("boom").data
    module_path := none
    file := none
    line := none }

/-- A Trace record, below the fixed Info minimum. -/
def recTrace : Record :=
  { level := Level.Trace
    args := ("noise").data
    module_path := some ("app::core").data
    file := some ("lib.rs").data
    line := some 1 }

/-- An Info record whose module path avoids the filter substring. -/
def recOther : Record :=
  { level := Level.Info
    args := ("elsewhere").data
    module_path := some ("other::mod").data
    file := some ("other.rs").data
    line := some 3 }

/-- An Info record whose message is the two characters backslash, `q`. -/
def recBackslash : Record :=
  { level := Level.Info
    args := ['\\', 'q']
    module_path := some ("app::core").data
    file := some ("lib.rs").data
    line := some 2 }

/-- A transport that always succeeds. -/
def transportOk : Request → TransportResult :=
  fun _ => TransportResult.ok

/-- A transport that always fails with a fixed diagnostic. -/
def transportDown : Request → TransportResult :=
  fun _ => TransportResult.err ("connection refused").data

/-! Helper lemmas. -/

/-- `enabled` decides the spec's importance order: when the configured
filter is the filter of a level `minL`, a severity is enabled exactly
when it is at least as important as `minL`. -/
lemma enabled_iff_imp (seq : Seq) (minL sev : Level)
    (h : seq.default_level = minL.to_level_filter) :
    seq.enabled sev = true ↔ minL.importance ≤ sev.importance := by
  simp only [Seq.enabled, h]
  cases minL <;> cases sev <;> decide

/-- The `Warn` bypass comparison holds exactly for `Warn` and `Error`. -/
lemma warnBypass_iff (lvl : Level) :
    LevelFilter.leb lvl.to_level_filter LevelFilter.Warn = true ↔
      (lvl = Level.Warn ∨ lvl = Level.Error) := by
  cases lvl <;> decide

/-- Every haystack contains the empty needle, as in Rust. -/
lemma strContains_nil (hay : Str) : strContains hay [] = true := by
  cases hay <;> rfl

/-- A call that is not enabled has no effects. -/
lemma log_not_enabled (seq : Seq) (record : Record) (now : Str)
    (transport : Request → TransportResult)
    (hen : seq.enabled record.level = false) :
    seq.log record now transport = emptyEffects := by
  simp [Seq.log, hen]

/-- A call dropped by the module filter has no effects. -/
lemma log_filtered (seq : Seq) (record : Record) (now : Str)
    (transport : Request → TransportResult)
    (hen : seq.enabled record.level = true)
    (hc : strContains (record.module_path.getD []) seq.module = false)
    (hw : LevelFilter.leb record.level.to_level_filter LevelFilter.Warn = false) :
    seq.log record now transport = emptyEffects := by
  simp [Seq.log, hen, hc, hw]

/-- A call that passes both checks reduces to the transport match. -/
lemma log_fwd (seq : Seq) (record : Record) (now : Str)
    (transport : Request → TransportResult)
    (hen : seq.enabled record.level = true)
    (hpass : (strContains (record.module_path.getD []) seq.module
              || LevelFilter.leb record.level.to_level_filter LevelFilter.Warn) = true) :
    seq.log record now transport =
      match transport (seq.logRequest record now) with
      | .ok =>
        { console := [Seq.debug_print record]
          requests := [seq.logRequest record now]
          stderr := [] }
      | .err why =>
        { console := [Seq.debug_print record]
          requests := [seq.logRequest record now]
          stderr :=
            [("Seq msg attempt: ").data ++ (SeqMessage.from_record seq record now).debugFmt,
             ("Rendered message: ").data ++ (SeqMessage.from_record seq record now).as_clef,
             ("Updating seq logs failed: ").data ++ why] } := by
  have h2 : (!(strContains (record.module_path.getD []) seq.module)
      && !(LevelFilter.leb record.level.to_level_filter LevelFilter.Warn)) = false := by
    rw [← Bool.not_or, hpass]
    rfl
  simp only [Seq.log, hen, h2, Bool.not_true, Bool.false_eq_true, if_false]

/-- The console line of `debug_print` is the spec's format. -/
lemma debug_print_eq (record : Record) :
    Seq.debug_print record = consoleFormat record.level record.args := by
  rcases record with ⟨lvl, args, m, f, l⟩
  cases lvl <;> rfl

/-- The two sequential `replace` calls of `as_clef` act character-wise:
quotes become backslash-quote, newlines become backslash-n, everything
else is copied. -/
lemma clefEscape_cons (c : Char) (t : Str) :
    clefEscape (c :: t) = specEscAction c ++ clefEscape t := by
  by_cases hq : c = '"'
  · subst hq; rfl
  · by_cases hn : c = '\n'
    · subst hn; rfl
    · simp [clefEscape, replaceChar, specEscAction, hq, hn, List.flatMap_cons,
        List.flatMap_append]

/-- `clefEscape` is the character-wise expansion by `specEscAction`. -/
lemma clefEscape_eq_flatMap (s : Str) :
    clefEscape s = s.flatMap specEscAction := by
  induction s with
  | nil => rfl
  | cons c t ih => rw [clefEscape_cons, List.flatMap_cons, ih]

/-- No expansion of a character contains a literal newline. -/
lemma specEscAction_no_newline (c : Char) : '\n' ∉ specEscAction c := by
  by_cases hq : c = '"'
  · subst hq; decide
  · by_cases hn : c = '\n'
    · subst hn; decide
    · simp [specEscAction, hq, hn]
      exact fun h => hn h.symm

/-- The escaped message body never contains a literal newline. -/
lemma clefEscape_no_newline (s : Str) : '\n' ∉ clefEscape s := by
  rw [clefEscape_eq_flatMap]
  intro hmem
  rcases List.mem_flatMap.mp hmem with ⟨c, _, hc⟩
  exact specEscAction_no_newline c hc

/-- For a message with no backslash and no control character other than
newline, the escaped body is a valid JSON string body. -/
lemma jsonStringBody_escape (s : Str)
    (h : ∀ c ∈ s, c ≠ '\\' ∧ (32 ≤ c.toNat ∨ c = '\n')) :
    jsonStringBody (clefEscape s) = true := by
  rw [clefEscape_eq_flatMap]
  induction s with
  | nil => rfl
  | cons c t ih =>
    have hc := h c (List.mem_cons_self c t)
    have hrest : ∀ x ∈ t, x ≠ '\\' ∧ (32 ≤ x.toNat ∨ x = '\n') :=
      fun x hx => h x (List.mem_cons_of_mem c hx)
    rw [List.flatMap_cons]
    by_cases hq : c = '"'
    · subst hq; exact ih hrest
    · by_cases hn : c = '\n'
      · subst hn; exact ih hrest
      · have h32 : 32 ≤ c.toNat := hc.2.resolve_right hn
        have hstep : specEscAction c ++ t.flatMap specEscAction
            = c :: t.flatMap specEscAction := by
          simp [specEscAction, hq, hn]
        rw [hstep]
        show jsonBodyScan JState.norm (c :: t.flatMap specEscAction) = true
        have ihh : jsonBodyScan JState.norm (t.flatMap specEscAction) = true :=
          ih hrest
        simp only [jsonBodyScan, hc.1, if_false]
        simp [bne_iff_ne, hq, Nat.ble_eq, h32, ihh]

/-! The claims. -/

/-- C2: `enabled(severity)` returns true iff the severity is at least as
important as the sink's configured minimum level, under the ordering
Trace < Debug < Info < Warn < Error, inclusive at the threshold. -/
theorem C2_enabled_threshold (seq : Seq) (minL sev : Level)
    (hmin : seq.default_level = minL.to_level_filter) :
    seq.enabled sev = true ↔ minL.importance ≤ sev.importance :=
  enabled_iff_imp seq minL sev hmin

theorem C2_enabled_threshold_witness :
    (Seq.new [] [] [] []).enabled Level.Warn = true
      ↔ Level.Info.importance ≤ Level.Warn.importance :=
  C2_enabled_threshold (Seq.new [] [] [] []) Level.Info Level.Warn rfl

/-- C3: a record below the configured minimum level is not enabled, and
`log` on it has no side effects whatsoever: no console output, no
request, no standard-error output. -/
theorem C3_below_min_noop (seq : Seq) (record : Record) (now : Str)
    (transport : Request → TransportResult) (minL : Level)
    (hmin : seq.default_level = minL.to_level_filter)
    (hlow : record.level.importance < minL.importance) :
    seq.enabled record.level = false
    ∧ seq.log record now transport = emptyEffects := by
  have hen : seq.enabled record.level = false := by
    cases h : seq.enabled record.level
    · rfl
    · have := (enabled_iff_imp seq minL record.level hmin).mp h
      omega
  exact ⟨hen, log_not_enabled seq record now transport hen⟩

theorem C3_below_min_noop_witness :
    seqFix.enabled recTrace.level = false
    ∧ seqFix.log recTrace ("t").data transportOk = emptyEffects :=
  C3_below_min_noop seqFix recTrace ("t").data transportOk Level.Info rfl
    (by decide)

/-- C5: the severity-name mapping of `level_to_seq_level` is exactly
Trace → Verbose, Debug → Debug, Info → Information, Warn → Warning,
Error → Error, and `from_record` uses it for the rendered message. -/
theorem C5_severity_names :
    Seq.level_to_seq_level Level.Trace = ("Verbose").data
    ∧ Seq.level_to_seq_level Level.Debug = ("Debug").data
    ∧ Seq.level_to_seq_level Level.Info = ("Information").data
    ∧ Seq.level_to_seq_level Level.Warn = ("Warning").data
    ∧ Seq.level_to_seq_level Level.Error = ("Error").data
    ∧ ∀ (seq : Seq) (record : Record) (now : Str),
        (SeqMessage.from_record seq record now).level
          = Seq.level_to_seq_level record.level :=
  ⟨rfl, rfl, rfl, rfl, rfl, fun _ _ _ => rfl⟩

/-- C6: `from_record` renders a missing line as 0 and a missing module
path or file as the empty string, and copies present values through
unchanged. -/
theorem C6_from_record_defaults (seq : Seq) (record : Record) (now : Str) :
    ((record.line = none → (SeqMessage.from_record seq record now).line = 0)
      ∧ ∀ n, record.line = some n → (SeqMessage.from_record seq record now).line = n)
    ∧ ((record.module_path = none
          → (SeqMessage.from_record seq record now).module = [])
      ∧ ∀ m, record.module_path = some m
          → (SeqMessage.from_record seq record now).module = m)
    ∧ ((record.file = none → (SeqMessage.from_record seq record now).file = [])
      ∧ ∀ f, record.file = some f
          → (SeqMessage.from_record seq record now).file = f) := by
  refine ⟨⟨fun h => ?_, fun n h => ?_⟩, ⟨fun h => ?_, fun m h => ?_⟩,
    ⟨fun h => ?_, fun f h => ?_⟩⟩ <;>
    simp [SeqMessage.from_record, h]

theorem C6_from_record_defaults_witness :
    (SeqMessage.from_record seqFix recBoom ("t").data).line = 0
    ∧ (SeqMessage.from_record seqFix recBoom ("t").data).module = []
    ∧ (SeqMessage.from_record seqFix recBoom ("t").data).file = []
    ∧ (SeqMessage.from_record seqFix recInApp ("t").data).line = 7
    ∧ (SeqMessage.from_record seqFix recInApp ("t").data).module
        = ("app::core").data
    ∧ (SeqMessage.from_record seqFix recInApp ("t").data).file
        = ("lib.rs").data :=
  ⟨(C6_from_record_defaults seqFix recBoom ("t").data).1.1 rfl,
   (C6_from_record_defaults seqFix recBoom ("t").data).2.1.1 rfl,
   (C6_from_record_defaults seqFix recBoom ("t").data).2.2.1 rfl,
   (C6_from_record_defaults seqFix recInApp ("t").data).1.2 7 rfl,
   (C6_from_record_defaults seqFix recInApp ("t").data).2.1.2
     (("app::core").data) rfl,
   (C6_from_record_defaults seqFix recInApp ("t").data).2.2.2
     (("lib.rs").data) rfl⟩

/-- C9: every sink built by `Seq::new`, whatever the four arguments, has
its minimum level fixed at Info: Trace and Debug are disabled, Info,
Warn and Error are enabled, and `init` sets the global maximum level to
Info. -/
theorem C9_new_fixed_info (api_key ingest_url application module : Str) :
    (Seq.new api_key ingest_url application module).default_level
        = LevelFilter.Info
    ∧ (Seq.new api_key ingest_url application module).init = LevelFilter.Info
    ∧ (Seq.new api_key ingest_url application module).enabled Level.Trace = false
    ∧ (Seq.new api_key ingest_url application module).enabled Level.Debug = false
    ∧ (Seq.new api_key ingest_url application module).enabled Level.Info = true
    ∧ (Seq.new api_key ingest_url application module).enabled Level.Warn = true
    ∧ (Seq.new api_key ingest_url application module).enabled Level.Error = true :=
  ⟨rfl, rfl, rfl, rfl, rfl, rfl, rfl⟩

/-- C10: with the empty module-filter substring, the containment check
passes for every module path (present or missing), so every enabled
record is forwarded: one console line and one HTTP request. -/
theorem C10_empty_filter (seq : Seq) (record : Record) (now : Str)
    (transport : Request → TransportResult)
    (hmod : seq.module = [])
    (hen : seq.enabled record.level = true) :
    (seq.log record now transport).console.length = 1
    ∧ (seq.log record now transport).requests.length = 1 := by
  have hpass : (strContains (record.module_path.getD []) seq.module
      || LevelFilter.leb record.level.to_level_filter LevelFilter.Warn) = true := by
    rw [hmod, strContains_nil]
    rfl
  rw [log_fwd seq record now transport hen hpass]
  cases transport (seq.logRequest record now) <;> exact ⟨rfl, rfl⟩

theorem C10_empty_filter_witness :
    (seqEmptyFilter.log recOther ("t").data transportOk).console.length = 1
    ∧ (seqEmptyFilter.log recOther ("t").data transportOk).requests.length = 1 :=
  C10_empty_filter seqEmptyFilter recOther ("t").data transportOk rfl (by decide)

/-- C1: for a record whose severity passes `enabled`, `log` forwards the
record (one console line and one HTTP send) iff the module path contains
the configured filter substring or the severity is Warn or Error; when
the path does not contain the filter and the severity is Trace, Debug or
Info, the record is dropped with no output at all. -/
theorem C1_log_filter_policy (seq : Seq) (record : Record) (now : Str)
    (transport : Request → TransportResult)
    (hen : seq.enabled record.level = true) :
    (((seq.log record now transport).console.length = 1
        ∧ (seq.log record now transport).requests.length = 1)
      ↔ (strContains (record.module_path.getD []) seq.module = true
          ∨ record.level = Level.Warn ∨ record.level = Level.Error))
    ∧ ((strContains (record.module_path.getD []) seq.module = false
        ∧ record.level ≠ Level.Warn ∧ record.level ≠ Level.Error)
      → seq.log record now transport = emptyEffects) := by
  by_cases hpass : (strContains (record.module_path.getD []) seq.module
      || LevelFilter.leb record.level.to_level_filter LevelFilter.Warn) = true
  · have hlog := log_fwd seq record now transport hen hpass
    have hfwd : (seq.log record now transport).console.length = 1
        ∧ (seq.log record now transport).requests.length = 1 := by
      rw [hlog]
      cases transport (seq.logRequest record now) <;> exact ⟨rfl, rfl⟩
    have hrhs : strContains (record.module_path.getD []) seq.module = true
        ∨ record.level = Level.Warn ∨ record.level = Level.Error := by
      have hpass2 : strContains (record.module_path.getD []) seq.module = true
          ∨ LevelFilter.leb record.level.to_level_filter LevelFilter.Warn = true := by
        simpa using hpass
      rcases hpass2 with h | h
      · exact Or.inl h
      · exact Or.inr ((warnBypass_iff record.level).mp h)
    refine ⟨iff_of_true hfwd hrhs, ?_⟩
    rintro ⟨hc, hw, he2⟩
    rcases hrhs with h | h | h
    · rw [hc] at h
      exact Bool.noConfusion h
    · exact absurd h hw
    · exact absurd h he2
  · have hb : (strContains (record.module_path.getD []) seq.module
        || LevelFilter.leb record.level.to_level_filter LevelFilter.Warn) = false :=
      Bool.eq_false_iff.mpr hpass
    rcases Bool.or_eq_false_iff.mp hb with ⟨hc, hw⟩
    have hlog := log_filtered seq record now transport hen hc hw
    refine ⟨iff_of_false ?_ ?_, fun _ => hlog⟩
    · rw [hlog]
      decide
    · rintro (h | h | h)
      · rw [hc] at h
        exact Bool.noConfusion h
      · have h2 := (warnBypass_iff record.level).mpr (Or.inl h)
        rw [hw] at h2
        exact Bool.noConfusion h2
      · have h2 := (warnBypass_iff record.level).mpr (Or.inr h)
        rw [hw] at h2
        exact Bool.noConfusion h2

theorem C1_log_filter_policy_witness :
    (((seqFix.log recInApp ("t").data transportOk).console.length = 1
        ∧ (seqFix.log recInApp ("t").data transportOk).requests.length = 1)
      ↔ (strContains (recInApp.module_path.getD []) seqFix.module = true
          ∨ recInApp.level = Level.Warn ∨ recInApp.level = Level.Error))
    ∧ ((strContains (recInApp.module_path.getD []) seqFix.module = false
        ∧ recInApp.level ≠ Level.Warn ∧ recInApp.level ≠ Level.Error)
      → seqFix.log recInApp ("t").data transportOk = emptyEffects) :=
  C1_log_filter_policy seqFix recInApp ("t").data transportOk (by decide)

/-- C4 (counterexample): the claim fails for the message backslash-q:
the escaping leaves it untouched, the resulting body is not a valid JSON
string body, and the illegal two-character sequence appears verbatim in
the rendered CLEF output, which therefore is not valid JSON. -/
theorem C4_clef_not_always_valid_json :
    clefEscape ['\\', 'q'] = ['\\', 'q']
    ∧ jsonStringBody (clefEscape ['\\', 'q']) = false
    ∧ strContains
        (SeqMessage.as_clef (SeqMessage.from_record seqFix recBackslash ("t").data))
        ['\\', 'q'] = true := by
  decide

/-- C4 (amended): for every message text, the rendered message body
escapes every double quote as backslash-quote and every newline as
backslash-n (all other characters copied unchanged) and contains no
literal newline; when the message additionally contains no backslash and
no control character other than newline, the escaped body is a valid
JSON string value.  (Backslashes and other control characters are copied
unescaped and can make the rendered output invalid JSON.) -/
theorem C4_clef_escape_amended (message : Str) :
    clefEscape message = message.flatMap specEscAction
    ∧ '\n' ∉ clefEscape message
    ∧ ((∀ c ∈ message, c ≠ '\\' ∧ (32 ≤ c.toNat ∨ c = '\n'))
        → jsonStringBody (clefEscape message) = true) :=
  ⟨clefEscape_eq_flatMap message, clefEscape_no_newline message,
   fun h => jsonStringBody_escape message h⟩

theorem C4_clef_escape_amended_witness :
    (clefEscape ("he\"llo\nworld").data
        = ("he\"llo\nworld").data.flatMap specEscAction
      ∧ '\n' ∉ clefEscape ("he\"llo\nworld").data)
    ∧ jsonStringBody (clefEscape ("he\"llo\nworld").data) = true :=
  ⟨⟨(C4_clef_escape_amended ("he\"llo\nworld").data).1,
    (C4_clef_escape_amended ("he\"llo\nworld").data).2.1⟩,
   (C4_clef_escape_amended ("he\"llo\nworld").data).2.2 (by decide)⟩

/-- C7: every forwarded record emits exactly one console line, the
bracketed upper-case severity tag followed by the message with all
double quotes stripped. -/
theorem C7_console_line (seq : Seq) (record : Record) (now : Str)
    (transport : Request → TransportResult)
    (hen : seq.enabled record.level = true)
    (hpass : (strContains (record.module_path.getD []) seq.module
        || LevelFilter.leb record.level.to_level_filter LevelFilter.Warn) = true) :
    (seq.log record now transport).console
      = [consoleFormat record.level record.args] := by
  rw [log_fwd seq record now transport hen hpass]
  cases transport (seq.logRequest record now) <;> simp [debug_print_eq]

theorem C7_console_line_witness :
    (seqFix.log recBoom ("t").data transportOk).console
      = [("[ ERROR ] boom").data] :=
  Eq.trans
    (C7_console_line seqFix recBoom ("t").data transportOk (by decide) (by decide))
    (by decide)

/-- C8: when the transport fails, the call still returns (the function
is total), exactly one request was attempted (no retry, no queuing), the
event is dropped, and standard error receives the diagnostic lines
containing the rendered payload and the error. -/
theorem C8_transport_failure (seq : Seq) (record : Record) (now why : Str)
    (transport : Request → TransportResult)
    (hen : seq.enabled record.level = true)
    (hpass : (strContains (record.module_path.getD []) seq.module
        || LevelFilter.leb record.level.to_level_filter LevelFilter.Warn) = true)
    (hfail : transport (seq.logRequest record now) = TransportResult.err why) :
    seq.log record now transport =
      { console := [Seq.debug_print record]
        requests := [seq.logRequest record now]
        stderr :=
          [("Seq msg attempt: ").data
              ++ (SeqMessage.from_record seq record now).debugFmt,
           ("Rendered message: ").data
              ++ (SeqMessage.from_record seq record now).as_clef,
           ("Updating seq logs failed: ").data ++ why] }
    ∧ (seq.log record now transport).requests.length = 1
    ∧ ("Rendered message: ").data ++ (SeqMessage.from_record seq record now).as_clef
        ∈ (seq.log record now transport).stderr
    ∧ ("Updating seq logs failed: ").data ++ why
        ∈ (seq.log record now transport).stderr := by
  have hlog := log_fwd seq record now transport hen hpass
  rw [hfail] at hlog
  refine ⟨hlog, ?_, ?_, ?_⟩ <;> rw [hlog] <;> simp

theorem C8_transport_failure_witness :
    (seqFix.log recInApp ("t").data transportDown).requests.length = 1
    ∧ ("Rendered message: ").data
        ++ (SeqMessage.from_record seqFix recInApp ("t").data).as_clef
        ∈ (seqFix.log recInApp ("t").data transportDown).stderr
    ∧ ("Updating seq logs failed: ").data ++ ("connection refused").data
        ∈ (seqFix.log recInApp ("t").data transportDown).stderr :=
  (C8_transport_failure seqFix recInApp ("t").data ("connection refused").data
    transportDown (by decide) (by decide) rfl).2

end LogSeq
